import Mathlib

/-!
Verification of the Reminder Dispatch Worker (`src/worker/reminder_worker.py`)
of the todo-pg repository, against its natural-language specification.

The durable state of the worker is the `scheduled_reminders` table; we embed a
database state as a `List Job` of rows.  Each SQL statement of the worker is
embedded as a pure function on that state, taking the `now()` of the transaction
(epoch seconds, `Int`) as an explicit argument.  Configuration
values read from the environment become explicit parameters bundled in
`WorkerConfig`.  The external world seen by one `process_batch` call (the
`todos`/`users` join target of `fetch_job_details`, and the Slack HTTP
endpoint) is an oracle bundled in `BatchEnv`.
-/

namespace ReminderWorker

/-- Job status: the `status` column of `scheduled_reminders`
(`pending`, `processing`, `sent`, `failed`). -/
inductive Status where
  | pending
  | processing
  | sent
  | failed
deriving Repr, DecidableEq

/-- One row of `scheduled_reminders`, with the columns the worker reads or
writes.  Timestamps are epoch seconds (`Int`); nullable columns are
`Option`. -/
structure Job where
  id : Nat
  todo_id : Nat
  user_id : Nat
  status : Status
  scheduled_for : Int
  visibility_timeout : Option Int
  started_at : Option Int
  posted_at : Option Int
  retry_count : Nat
  error : Option String
deriving Repr, DecidableEq

/-- Worker configuration knobs (environment variables at module top of the
source; defaults `MAX_BATCH = 10`, `VISIBILITY_TIMEOUT_SECS = 300`,
`MAX_RETRIES = 5`, `BACKOFF_BASE_SECS = 60`, `BACKOFF_MAX_SECS = 3600`). -/
structure WorkerConfig where
  MAX_BATCH : Nat
  VISIBILITY_TIMEOUT_SECS : Int
  MAX_RETRIES : Nat
  BACKOFF_BASE_SECS : Nat
  BACKOFF_MAX_SECS : Nat
deriving Repr, DecidableEq

/-- The default configuration of the source. -/
def defaultConfig : WorkerConfig :=
  { MAX_BATCH := 10
    VISIBILITY_TIMEOUT_SECS := 300
    MAX_RETRIES := 5
    BACKOFF_BASE_SECS := 60
    BACKOFF_MAX_SECS := 3600 }

/-- `_seconds_backoff` of the source: `min(BACKOFF_BASE_SECS * 2 ** retry_count,
BACKOFF_MAX_SECS)`. -/
def _seconds_backoff (base cap : Nat) (retry_count : Nat) : Nat :=
  min (base * 2 ^ retry_count) cap

/-- SQL `left(s, n)`: the first `n` characters of `s`. -/
def sqlLeft (s : String) (n : Nat) : String :=
  { data := s.data.take n }

/-- The `visibility_timeout IS NULL OR visibility_timeout <= now()` disjunct of
the `WHERE` clause of the claim query. -/
def vtOk (now : Int) : Option Int → Bool
  | none => true
  | some t => decide (t ≤ now)

/-- The full `WHERE` clause of the CTE of the claim query: `status = pending AND
scheduled_for <= now() AND (visibility_timeout IS NULL OR visibility_timeout
<= now())`. -/
def eligible (now : Int) (j : Job) : Bool :=
  j.status == Status.pending && decide (j.scheduled_for ≤ now) && vtOk now j.visibility_timeout

/-- Insertion step of the embedding of `ORDER BY scheduled_for ASC`. -/
def sortedInsert (j : Job) : List Job → List Job
  | [] => [j]
  | k :: ks => if j.scheduled_for ≤ k.scheduled_for then j :: k :: ks else k :: sortedInsert j ks

/-- Embedding of `ORDER BY scheduled_for ASC` (insertion sort; the SQL order
among equal keys is unspecified, so any sort by this key is a faithful
model). -/
def sortBySched : List Job → List Job
  | [] => []
  | j :: js => sortedInsert j (sortBySched js)

/-- The CTE of `claim_jobs` before `LIMIT`: eligible rows in `scheduled_for`
ascending order. -/
def eligibleSorted (db : List Job) (now : Int) : List Job :=
  sortBySched (db.filter (eligible now))

/-- The CTE of `claim_jobs`: eligible rows, ordered, first `limit` of them.
(`FOR UPDATE SKIP LOCKED` is the cross-process locking discipline; in this
single-transaction embedding no other transaction holds locks.) -/
def selectedJobs (db : List Job) (now : Int) (limit : Nat) : List Job :=
  (eligibleSorted db now).take limit

/-- The `SET` clause of the `UPDATE` in `claim_jobs`: `status = processing,
started_at = now(), visibility_timeout = now() + make_interval(secs => lease)`. -/
def claimUpdate (now : Int) (lease : Int) (j : Job) : Job :=
  { j with
    status := Status.processing
    started_at := some now
    visibility_timeout := some (now + lease) }

/-- `claim_jobs` of the source: the CTE selects up to `limit` eligible rows in
`scheduled_for` order, the `UPDATE ... FROM cte` transitions exactly those
rows, and `RETURNING` hands the updated rows back (the source projects
`s.id, s.todo_id, s.user_id`; the model returns the whole updated row, of
which the dispatch loop reads only `id`).  Returns the new table state and
the returned rows. -/
def claim_jobs (db : List Job) (now : Int) (limit : Nat) (lease : Int) :
    List Job × List Job :=
  let sel := selectedJobs db now limit
  let ids := sel.map Job.id
  (db.map (fun j => if ids.contains j.id then claimUpdate now lease j else j),
   sel.map (claimUpdate now lease))

/-! ### Basic lemmas about the sort and the selection -/

theorem sortedInsert_perm (j : Job) (l : List Job) :
    List.Perm (sortedInsert j l) (j :: l) := by
  induction l with
  | nil => simp [sortedInsert]
  | cons k ks ih =>
    simp only [sortedInsert]
    split
    · exact List.Perm.refl _
    · exact ((ih.cons k).trans (List.Perm.swap j k ks))

theorem sortBySched_perm (l : List Job) : List.Perm (sortBySched l) l := by
  induction l with
  | nil => simp [sortBySched]
  | cons j js ih =>
    exact (sortedInsert_perm j (sortBySched js)).trans (ih.cons j)

theorem mem_sortBySched {j : Job} {l : List Job} :
    j ∈ sortBySched l ↔ j ∈ l :=
  (sortBySched_perm l).mem_iff

theorem sortedInsert_pairwise (j : Job) (l : List Job)
    (h : l.Pairwise (fun a b => a.scheduled_for ≤ b.scheduled_for)) :
    (sortedInsert j l).Pairwise (fun a b => a.scheduled_for ≤ b.scheduled_for) := by
  induction l with
  | nil => simp [sortedInsert]
  | cons k ks ih =>
    simp only [sortedInsert]
    rcases List.pairwise_cons.mp h with ⟨hk, hks⟩
    split
    · rename_i hle
      refine List.pairwise_cons.mpr ⟨?_, h⟩
      intro b hb
      rcases List.mem_cons.mp hb with rfl | hb
      · exact hle
      · exact le_trans hle (hk _ hb)
    · rename_i hgt
      refine List.pairwise_cons.mpr ⟨?_, ih hks⟩
      intro b hb
      have hb' := (sortedInsert_perm j ks).mem_iff.mp hb
      rcases List.mem_cons.mp hb' with rfl | hb'
      · exact le_of_not_le hgt
      · exact hk _ hb'

theorem sortBySched_pairwise (l : List Job) :
    (sortBySched l).Pairwise (fun a b => a.scheduled_for ≤ b.scheduled_for) := by
  induction l with
  | nil => simp [sortBySched]
  | cons j js ih => exact sortedInsert_pairwise j (sortBySched js) ih

theorem selectedJobs_mem {db : List Job} {now : Int} {limit : Nat} {j : Job}
    (h : j ∈ selectedJobs db now limit) : j ∈ db ∧ eligible now j = true := by
  have h1 : j ∈ eligibleSorted db now := List.mem_of_mem_take h
  have h2 : j ∈ db.filter (eligible now) := mem_sortBySched.mp h1
  exact ⟨List.mem_of_mem_filter h2, List.of_mem_filter h2⟩

theorem selectedJobs_pairwise (db : List Job) (now : Int) (limit : Nat) :
    (selectedJobs db now limit).Pairwise (fun a b => a.scheduled_for ≤ b.scheduled_for) :=
  (sortBySched_pairwise _).sublist (List.take_sublist _ _)

theorem selectedJobs_length (db : List Job) (now : Int) (limit : Nat) :
    (selectedJobs db now limit).length = min limit (db.filter (eligible now)).length := by
  simp [selectedJobs, eligibleSorted, (sortBySched_perm (db.filter (eligible now))).length_eq]

/-! ### The other store operations -/

/-- The `SET` clause of `mark_sent`: `status = sent, posted_at = now(),
visibility_timeout = NULL, error = NULL`. -/
def markSentUpdate (now : Int) (j : Job) : Job :=
  { j with
    status := Status.sent
    posted_at := some now
    visibility_timeout := none
    error := none }

/-- `mark_sent` of the source: updates the row `WHERE id = $1`. -/
def mark_sent (db : List Job) (now : Int) (reminder_id : Nat) : List Job :=
  db.map (fun j => if j.id == reminder_id then markSentUpdate now j else j)

/-- The `SET` clause of the `failed` branch of `requeue_with_backoff`:
`status = failed, retry_count = retry_count + 1, visibility_timeout = NULL,
posted_at = NULL, error = left($2, 512)`. -/
def requeueUpdateFail (error_msg : String) (j : Job) : Job :=
  { j with
    status := Status.failed
    retry_count := j.retry_count + 1
    visibility_timeout := none
    posted_at := none
    error := some (sqlLeft error_msg 512) }

/-- The `SET` clause of the `pending` branch of `requeue_with_backoff`:
`status = pending, retry_count = retry_count + 1, visibility_timeout = NULL,
scheduled_for = now() + make_interval(secs => $2), started_at = NULL,
error = left($3, 512)`. -/
def requeueUpdatePending (now : Int) (delay_secs : Nat) (error_msg : String) (j : Job) : Job :=
  { j with
    status := Status.pending
    retry_count := j.retry_count + 1
    visibility_timeout := none
    scheduled_for := now + (delay_secs : Int)
    started_at := none
    error := some (sqlLeft error_msg 512) }

/-- `requeue_with_backoff` of the source: `next_retry = current_retry + 1`;
if `next_retry >= MAX_RETRIES` run the `failed` update, else compute
`delay_secs = _seconds_backoff(next_retry)` and run the `pending` update, both
`WHERE id = $1`. -/
def requeue_with_backoff (MAX_RETRIES base cap : Nat) (db : List Job) (now : Int)
    (reminder_id : Nat) (current_retry : Nat) (error_msg : String) : List Job :=
  let next_retry := current_retry + 1
  if MAX_RETRIES ≤ next_retry then
    db.map (fun j => if j.id == reminder_id then requeueUpdateFail error_msg j else j)
  else
    let delay_secs := _seconds_backoff base cap next_retry
    db.map (fun j => if j.id == reminder_id then requeueUpdatePending now delay_secs error_msg j else j)

/-- `SELECT retry_count FROM scheduled_reminders WHERE id = $1` via `fetchval`:
`none` when no row matches (the schema of the source declares `retry_count`
non-null, per the data model of the spec, so a found row yields its count). -/
def fetchvalRetryCount (db : List Job) (reminder_id : Nat) : Option Nat :=
  (db.find? (fun j => j.id == reminder_id)).map Job.retry_count

/-- Python `int(val or 0)` on the `fetchval` result: `None` and `0` are falsy
and give `0`; any other value passes through. -/
def pyIntOrZero : Option Nat → Nat
  | none => 0
  | some v => if v == 0 then 0 else v

/-- `get_retry_count` of the source: `int(val or 0)` over the `fetchval`. -/
def get_retry_count (db : List Job) (reminder_id : Nat) : Nat :=
  pyIntOrZero (fetchvalRetryCount db reminder_id)

/-! ### The Slack delivery client -/

/-- The JSON object of a Slack `chat.postMessage` acknowledgment, as the
source consumes it: `ok` is the Python truthiness of `data.get("ok")` (a
missing key is falsy), `raw` stands for the rest of the body interpolated
into the error message. -/
structure SlackData where
  ok : Bool
  raw : String
deriving Repr, DecidableEq

/-- An HTTP response of the Slack endpoint: its status code, and `some` parsed
JSON body, or `none` when `resp.json()` raises (body not JSON). -/
structure HttpResponse where
  status_code : Nat
  jsonData : Option SlackData
deriving Repr, DecidableEq

/-- `post_to_slack` of the source, as a function of the response the endpoint
gives: raises (`Except.error`) when `SLACK_BOT_TOKEN` is empty, when
`resp.json()` fails, or when `not data.get("ok")`; otherwise returns
successfully.  The source never reads `resp.status_code`. -/
def post_to_slack (token : String) (resp : HttpResponse) : Except String Unit :=
  if token = "" then Except.error "SLACK_BOT_TOKEN is not configured"
  else
    match resp.jsonData with
    | none => Except.error "response body is not JSON"
    | some data =>
      if data.ok then Except.ok ()
      else Except.error ("Slack API error: " ++ data.raw)

/-! ### Message rendering -/

/-- An instant, represented by its civil coordinates in UTC (a Python aware
`datetime`; `astimezone(timezone.utc)` re-expresses the same instant in UTC,
which in this representation is the identity). -/
structure DateTimeUTC where
  year : Nat
  month : Nat
  day : Nat
  hour : Nat
  minute : Nat
deriving Repr, DecidableEq

/-- The `due_date` value of a job detail row: a `datetime`, or any other
value (rendered via `str(due)`). -/
inductive DueDate where
  | dt (d : DateTimeUTC)
  | other (s : String)
deriving Repr, DecidableEq

/-- Zero-padded two-digit field of `strftime`. -/
def pad2 (n : Nat) : String :=
  if n < 10 then "0" ++ toString n else toString n

/-- Zero-padded four-digit year field of `strftime` (`%Y`). -/
def pad4 (n : Nat) : String :=
  if n < 10 then "000" ++ toString n
  else if n < 100 then "00" ++ toString n
  else if n < 1000 then "0" ++ toString n
  else toString n

/-- `strftime("%Y-%m-%d %H:%M UTC")` on a UTC instant. -/
def strftimeUTC (d : DateTimeUTC) : String :=
  pad4 d.year ++ "-" ++ pad2 d.month ++ "-" ++ pad2 d.day ++ " "
    ++ pad2 d.hour ++ ":" ++ pad2 d.minute ++ " UTC"

/-- The structured `payload` of a todo, as `_format_message` consumes it:
the `.get` of each optional key. -/
structure Payload where
  tags : Option (List String)
  priority : Option String
  notes : Option String
deriving Repr, DecidableEq

/-- The job detail snapshot produced by `fetch_job_details`: the join of the
reminder with its todo and user.  `payload` is `none` when the column is SQL
`NULL`, not a JSON object, or unparseable (the source then treats it as `{}`
via `payload or {}` / the `isinstance` guard). -/
structure JobDetails where
  reminder_id : Nat
  todo_id : Nat
  description : String
  due_date : DueDate
  payload : Option Payload
  user_id : Nat
  slack_channel : String
deriving Repr, DecidableEq

/-- Python truthiness of `payload.get("tags")`: `None` and `[]` are falsy. -/
def truthyTags : Option (List String) → Bool
  | none => false
  | some ts => !ts.isEmpty

/-- Python truthiness of an optional string (`priority`, `notes`): `None` and
`""` are falsy. -/
def truthyStr : Option String → Bool
  | none => false
  | some s => !(s == "")

/-- The `lines` list built by `_format_message`, before the `"\n".join`. -/
def _format_message_lines (job : JobDetails) : List String :=
  let due_text := match job.due_date with
    | DueDate.dt d => strftimeUTC d
    | DueDate.other s => s
  let lines := ["📌 Todo Reminder",
                "• Description: " ++ job.description,
                "• Due: " ++ due_text]
  let tags := match job.payload with
    | none => none
    | some p => p.tags
  let priority := match job.payload with
    | none => none
    | some p => p.priority
  let notes := match job.payload with
    | none => none
    | some p => p.notes
  let lines := if truthyTags tags then
      lines ++ ["• Tags: " ++ String.intercalate ", " (tags.getD [])]
    else lines
  let lines := if truthyStr priority then
      lines ++ ["• Priority: " ++ priority.getD ""]
    else lines
  let lines := if truthyStr notes then
      lines ++ ["• Notes: " ++ notes.getD ""]
    else lines
  lines

/-- `_format_message` of the source: the built lines joined with `"\n"`. -/
def _format_message (job : JobDetails) : String :=
  String.intercalate "\n" (_format_message_lines job)

/-! ### The per-batch processing loop -/

/-- The external world one `process_batch` call sees: the transaction
timestamp, the Slack token, the `todos ⋈ users` join behind
`fetch_job_details` (per reminder id), and the response of the Slack endpoint to
the delivery attempt of each reminder id. -/
structure BatchEnv where
  now : Int
  token : String
  details : Nat → Option JobDetails
  slackResp : Nat → HttpResponse

/-- The body of the `try` block of `process_batch` for one claimed row:
fetch details (missing → requeue with "Missing job details"), check the
channel (falsy → requeue with "Missing slack_channel"), render, deliver
(`post_to_slack` raising propagates as `Except.error`), and on success
`mark_sent`. -/
def processJobBody (cfg : WorkerConfig) (env : BatchEnv) (db : List Job)
    (reminder_id : Nat) : Except String (List Job) :=
  match env.details reminder_id with
  | none =>
    Except.ok (requeue_with_backoff cfg.MAX_RETRIES cfg.BACKOFF_BASE_SECS cfg.BACKOFF_MAX_SECS
      db env.now reminder_id (get_retry_count db reminder_id) "Missing job details")
  | some d =>
    if d.slack_channel = "" then
      Except.ok (requeue_with_backoff cfg.MAX_RETRIES cfg.BACKOFF_BASE_SECS cfg.BACKOFF_MAX_SECS
        db env.now reminder_id (get_retry_count db reminder_id) "Missing slack_channel")
    else
      match post_to_slack env.token (env.slackResp reminder_id) with
      | Except.error e => Except.error e
      | Except.ok _ => Except.ok (mark_sent db env.now reminder_id)

/-- The processing of one claimed row in `process_batch`, with the exception handler:
an exception from the body is caught and converted into
`requeue_with_backoff(reminder_id, get_retry_count(reminder_id), str(exc))`. -/
def processJobStep (cfg : WorkerConfig) (env : BatchEnv) (db : List Job)
    (reminder_id : Nat) : List Job :=
  match processJobBody cfg env db reminder_id with
  | Except.ok db' => db'
  | Except.error e =>
    requeue_with_backoff cfg.MAX_RETRIES cfg.BACKOFF_BASE_SECS cfg.BACKOFF_MAX_SECS
      db env.now reminder_id (get_retry_count db reminder_id) e

/-- `process_batch` of the source: claim up to `MAX_BATCH` jobs; if none,
return 0; otherwise process each claimed row in order and return
`len(claimed)`. -/
def process_batch (cfg : WorkerConfig) (env : BatchEnv) (db : List Job) :
    List Job × Nat :=
  let res := claim_jobs db env.now cfg.MAX_BATCH cfg.VISIBILITY_TIMEOUT_SECS
  let db1 := res.1
  let claimed := res.2
  if claimed.isEmpty then (db1, 0)
  else (claimed.foldl (fun acc row => processJobStep cfg env acc row.id) db1, claimed.length)

/-- A sequence of `process_batch` calls (the successive cycles of the dispatch
loop, each with its own time and external-world view). -/
def runBatches (cfg : WorkerConfig) (steps : List BatchEnv) (db : List Job) : List Job :=
  steps.foldl (fun acc env => (process_batch cfg env acc).1) db

/-! ### Small helper lemmas -/

theorem contains_of_mem {l : List Nat} {a : Nat} (h : a ∈ l) : l.contains a = true := by
  simpa [List.contains, List.elem_iff] using h

theorem mem_of_contains {l : List Nat} {a : Nat} (h : l.contains a = true) : a ∈ l := by
  simpa [List.contains, List.elem_iff] using h

theorem mem_map_update {f : Job → Job} {db : List Job} {rid : Nat} {j : Job}
    (hj : j ∈ db) (hid : j.id = rid) :
    f j ∈ db.map (fun k => if k.id == rid then f k else k) := by
  have h := List.mem_map_of_mem (fun k => if k.id == rid then f k else k) hj
  simpa [hid] using h

theorem sqlLeft_length (s : String) (n : Nat) : (sqlLeft s n).length ≤ n := by
  show (s.data.take n).length ≤ n
  simp

theorem pyIntOrZero_some (v : Nat) : pyIntOrZero (some v) = v := by
  rcases Nat.eq_zero_or_pos v with h | h
  · simp [pyIntOrZero, h]
  · simp [pyIntOrZero, Nat.pos_iff_ne_zero.mp h]

/-! ### C4: the backoff function -/

/-- Claim C4: for every non-negative retry count `r`, the backoff delay equals
`min(BASE * 2^r, CAP)`; it is non-decreasing in the retry count and never
exceeds `CAP`; with the defaults `BASE = 60`, `CAP = 3600` the delays are
60, 120, 240, ... capped at 3600. -/
theorem C4_backoff_formula_monotone_capped (base cap r i j : Nat) :
    _seconds_backoff base cap r = min (base * 2 ^ r) cap
    ∧ (i ≤ j → _seconds_backoff base cap i ≤ _seconds_backoff base cap j)
    ∧ _seconds_backoff base cap r ≤ cap
    ∧ (_seconds_backoff 60 3600 0 = 60 ∧ _seconds_backoff 60 3600 1 = 120
       ∧ _seconds_backoff 60 3600 2 = 240 ∧ _seconds_backoff 60 3600 3 = 480
       ∧ _seconds_backoff 60 3600 4 = 960 ∧ _seconds_backoff 60 3600 5 = 1920
       ∧ _seconds_backoff 60 3600 6 = 3600 ∧ _seconds_backoff 60 3600 7 = 3600) := by
  refine ⟨rfl, ?_, min_le_right _ _, by decide⟩
  intro hij
  exact min_le_min (Nat.mul_le_mul le_rfl (Nat.pow_le_pow_right (by norm_num) hij)) le_rfl

/-- Witness for C4 at concrete inputs: monotonicity between retry counts 2 and
5 with the default base and cap. -/
theorem C4_backoff_witness :
    _seconds_backoff 60 3600 2 ≤ _seconds_backoff 60 3600 5 :=
  (C4_backoff_formula_monotone_capped 60 3600 0 2 5).2.1 (by decide)

/-! ### C10: `get_retry_count` on a missing row -/

/-- Claim C10: `get_retry_count` never raises for a nonexistent job: when no
row with the given id exists, `fetchval` yields `None` and `int(None or 0)`
is `0`.  (The model is total, so "does not raise" holds by construction.) -/
theorem C10_get_retry_count_missing_row (db : List Job) (reminder_id : Nat)
    (h : ∀ j ∈ db, j.id ≠ reminder_id) :
    get_retry_count db reminder_id = 0 := by
  have hfind : db.find? (fun j => j.id == reminder_id) = none := by
    rw [List.find?_eq_none]
    intro j hj
    simp [h j hj]
  simp [get_retry_count, fetchvalRetryCount, hfind, pyIntOrZero]

/-- A sample row used by several witnesses. -/
def sampleJob : Job :=
  { id := 1
    todo_id := 11
    user_id := 21
    status := Status.pending
    scheduled_for := 50
    visibility_timeout := none
    started_at := none
    posted_at := none
    retry_count := 0
    error := none }

/-- Witness for C10: a store holding only the row with id 1 yields retry count
0 for the absent id 99. -/
theorem C10_witness : get_retry_count [sampleJob] 99 = 0 :=
  C10_get_retry_count_missing_row [sampleJob] 99 (by decide)

/-! ### C2 and C9: `requeue_with_backoff` -/

/-- Claim C2: `requeue_with_backoff(id, r, e)` with `r + 1 >= MAX_RETRIES`
sets the row to `failed`, increments `retry_count` by one, clears
`visibility_timeout` and `posted_at`, and records the truncated error; with
`r + 1 < MAX_RETRIES` it sets the row back to `pending`, increments
`retry_count` by one, clears `visibility_timeout` and `started_at`, sets
`scheduled_for = now + backoff(r + 1)`, and records the error. -/
theorem C2_requeue_or_fail_branches (MAX base cap : Nat) (db : List Job) (now : Int)
    (reminder_id r : Nat) (e : String) (j : Job) (hj : j ∈ db) (hid : j.id = reminder_id) :
    (MAX ≤ r + 1 →
      requeueUpdateFail e j ∈ requeue_with_backoff MAX base cap db now reminder_id r e
      ∧ (requeueUpdateFail e j).status = Status.failed
      ∧ (requeueUpdateFail e j).retry_count = j.retry_count + 1
      ∧ (requeueUpdateFail e j).visibility_timeout = none
      ∧ (requeueUpdateFail e j).posted_at = none
      ∧ (requeueUpdateFail e j).error = some (sqlLeft e 512))
    ∧ (r + 1 < MAX →
      requeueUpdatePending now (_seconds_backoff base cap (r + 1)) e j
          ∈ requeue_with_backoff MAX base cap db now reminder_id r e
      ∧ (requeueUpdatePending now (_seconds_backoff base cap (r + 1)) e j).status = Status.pending
      ∧ (requeueUpdatePending now (_seconds_backoff base cap (r + 1)) e j).retry_count
          = j.retry_count + 1
      ∧ (requeueUpdatePending now (_seconds_backoff base cap (r + 1)) e j).visibility_timeout = none
      ∧ (requeueUpdatePending now (_seconds_backoff base cap (r + 1)) e j).started_at = none
      ∧ (requeueUpdatePending now (_seconds_backoff base cap (r + 1)) e j).scheduled_for
          = now + (_seconds_backoff base cap (r + 1) : Int)
      ∧ (requeueUpdatePending now (_seconds_backoff base cap (r + 1)) e j).error
          = some (sqlLeft e 512)) := by
  constructor
  · intro hmax
    refine ⟨?_, rfl, rfl, rfl, rfl, rfl⟩
    unfold requeue_with_backoff
    rw [if_pos hmax]
    exact mem_map_update hj hid
  · intro hlt
    refine ⟨?_, rfl, rfl, rfl, rfl, rfl, rfl⟩
    unfold requeue_with_backoff
    rw [if_neg (by omega)]
    exact mem_map_update hj hid

/-- Witness for C2 at concrete inputs: both branches, on a one-row store. -/
theorem C2_witness :
    (requeueUpdateFail "boom" sampleJob ∈ requeue_with_backoff 1 60 3600 [sampleJob] 100 1 0 "boom"
      ∧ (requeueUpdateFail "boom" sampleJob).status = Status.failed)
    ∧ (requeueUpdatePending 100 (_seconds_backoff 60 3600 1) "boom" sampleJob
          ∈ requeue_with_backoff 5 60 3600 [sampleJob] 100 1 0 "boom"
      ∧ (requeueUpdatePending 100 (_seconds_backoff 60 3600 1) "boom" sampleJob).status
          = Status.pending) :=
  ⟨let h := (C2_requeue_or_fail_branches 1 60 3600 [sampleJob] 100 1 0 "boom" sampleJob
      (by decide) rfl).1 (by decide)
   ⟨h.1, h.2.1⟩,
   let h := (C2_requeue_or_fail_branches 5 60 3600 [sampleJob] 100 1 0 "boom" sampleJob
      (by decide) rfl).2 (by decide)
   ⟨h.1, h.2.1⟩⟩

/-- Claim C9: both branches of `requeue_with_backoff` store `left(e, 512)` in
the `error` column: the stored message is the first at most 512 characters of
the given one. -/
theorem C9_error_truncated_512 (MAX base cap : Nat) (db : List Job) (now : Int)
    (reminder_id r : Nat) (e : String) (j : Job) (hj : j ∈ db) (hid : j.id = reminder_id) :
    ∃ j' ∈ requeue_with_backoff MAX base cap db now reminder_id r e,
      j'.id = reminder_id ∧ j'.error = some (sqlLeft e 512)
      ∧ (sqlLeft e 512).length ≤ 512 ∧ (sqlLeft e 512).data = e.data.take 512 := by
  simp only [requeue_with_backoff]
  by_cases h : MAX ≤ r + 1
  · rw [if_pos h]
    exact ⟨requeueUpdateFail e j, mem_map_update hj hid, hid, rfl, sqlLeft_length e 512, rfl⟩
  · rw [if_neg h]
    exact ⟨requeueUpdatePending now (_seconds_backoff base cap (r + 1)) e j,
      mem_map_update hj hid, hid, rfl, sqlLeft_length e 512, rfl⟩

/-- Witness for C9: a 600-character error message is stored truncated to 512
characters. -/
theorem C9_witness :
    ∃ j' ∈ requeue_with_backoff 5 60 3600 [sampleJob] 100 1 0
        (String.mk (List.replicate 600 'x')),
      j'.id = 1 ∧ j'.error = some (sqlLeft (String.mk (List.replicate 600 'x')) 512)
      ∧ (sqlLeft (String.mk (List.replicate 600 'x')) 512).length ≤ 512
      ∧ (sqlLeft (String.mk (List.replicate 600 'x')) 512).data
          = (String.mk (List.replicate 600 'x')).data.take 512 :=
  C9_error_truncated_512 5 60 3600 [sampleJob] 100 1 0 _ sampleJob (by decide) rfl

/-! ### C6: the delivery client and the Slack acknowledgment -/

/-- Counterexample to claim C6 as stated: `post_to_slack` reports success for
a non-success HTTP response (status 500) whose JSON body nonetheless carries
a truthy `ok` flag, because the source never inspects `resp.status_code`. -/
theorem C6_counterexample :
    post_to_slack "xoxb-token"
      { status_code := 500, jsonData := some { ok := true, raw := "" } } = Except.ok () := by
  rfl

/-- Claim C6 as amended: delivery fails (raises) exactly when the token is
unset, the response body is not JSON, or the application-level `ok` flag in
the body is not truthy; the HTTP status code plays no role (same outcome for
every status code).  In particular a not-ok acknowledgment is never reported
as success. -/
theorem C6_ack_flag_decides_success (token : String) (resp : HttpResponse) :
    (post_to_slack token resp = Except.ok () ↔
      token ≠ "" ∧ ∃ d, resp.jsonData = some d ∧ d.ok = true)
    ∧ (∀ c : Nat, post_to_slack token { resp with status_code := c } = post_to_slack token resp) := by
  constructor
  · unfold post_to_slack
    split
    · rename_i h
      simp [h]
    · rename_i h
      rcases hdata : resp.jsonData with _ | d
      · simp
      · rcases hok : d.ok with _ | _
        · simp [hok, h]
        · simp [hok, h]
  · intro c
    unfold post_to_slack
    rfl

/-- Witness for C6 (amended) at concrete inputs: a not-ok acknowledgment is
not a success, and an ok acknowledgment is. -/
theorem C6_witness :
    post_to_slack "xoxb-token" { status_code := 200, jsonData := some { ok := false, raw := "r" } }
        ≠ Except.ok ()
    ∧ post_to_slack "xoxb-token" { status_code := 200, jsonData := some { ok := true, raw := "" } }
        = Except.ok () := by
  constructor
  · intro h
    rcases ((C6_ack_flag_decides_success "xoxb-token"
      { status_code := 200, jsonData := some { ok := false, raw := "r" } }).1.mp h).2
      with ⟨d, hd, hok⟩
    rw [Option.some_inj] at hd
    rw [← hd] at hok
    cases hok
  · exact (C6_ack_flag_decides_success "xoxb-token"
      { status_code := 200, jsonData := some { ok := true, raw := "" } }).1.mpr
      ⟨by decide, ⟨{ ok := true, raw := "" }, rfl, rfl⟩⟩

/-! ### C8: message rendering -/

/-- The `due_text` local of `_format_message`. -/
def dueText (job : JobDetails) : String :=
  match job.due_date with
  | DueDate.dt d => strftimeUTC d
  | DueDate.other s => s

/-- Modelled from the amended claim wording: the tags line appears exactly
when `tags` is present in the payload and non-empty. -/
def specTagsLines (job : JobDetails) : List String :=
  match job.payload with
  | none => []
  | some p =>
    match p.tags with
    | none => []
    | some [] => []
    | some (t :: ts) => ["• Tags: " ++ String.intercalate ", " (t :: ts)]

/-- Modelled from the amended claim wording: the priority line appears exactly
when `priority` is present in the payload and non-empty. -/
def specPriorityLines (job : JobDetails) : List String :=
  match job.payload with
  | none => []
  | some p =>
    match p.priority with
    | none => []
    | some s => if s = "" then [] else ["• Priority: " ++ s]

/-- Modelled from the amended claim wording: the notes line appears exactly
when `notes` is present in the payload and non-empty. -/
def specNotesLines (job : JobDetails) : List String :=
  match job.payload with
  | none => []
  | some p =>
    match p.notes with
    | none => []
    | some s => if s = "" then [] else ["• Notes: " ++ s]

/-- A job detail snapshot whose payload carries `tags` (present, as an empty
list): the counterexample input for C8. -/
def c8EmptyTagsJob : JobDetails :=
  { reminder_id := 1
    todo_id := 11
    description := "Submit report"
    due_date := DueDate.dt { year := 2024, month := 1, day := 15, hour := 10, minute := 0 }
    payload := some { tags := some [], priority := none, notes := none }
    user_id := 21
    slack_channel := "C123" }

/-- Counterexample to claim C8 as stated: for a payload whose `tags` key is
present but holds the empty list, the rendered message carries no tags line
(Python `if tags:` is false for `[]`), so "a tags line appears exactly when
tags is present in the payload" fails. -/
theorem C8_counterexample :
    (∃ p, c8EmptyTagsJob.payload = some p ∧ p.tags = some [])
    ∧ _format_message_lines c8EmptyTagsJob =
        ["📌 Todo Reminder", "• Description: Submit report", "• Due: 2024-01-15 10:00 UTC"] :=
  ⟨⟨{ tags := some [], priority := none, notes := none }, rfl, rfl⟩, by rfl⟩

/-- Claim C8 as amended: rendering is a deterministic function of the snapshot
producing the lines joined by newlines; the first three lines are the title,
the description and the due date (normalized UTC instants formatted
`YYYY-MM-DD HH:MM UTC`); then exactly when present in the payload AND
non-empty (Python-truthy) come a tags line (tags joined by comma and space),
a priority line, and a notes line; when the payload is null none of the
optional lines appears. -/
theorem C8_render_lines (job : JobDetails) :
    _format_message job = String.intercalate "\n" (_format_message_lines job)
    ∧ _format_message_lines job =
        ["📌 Todo Reminder", "• Description: " ++ job.description, "• Due: " ++ dueText job]
          ++ specTagsLines job ++ specPriorityLines job ++ specNotesLines job
    ∧ (∀ d, job.due_date = DueDate.dt d → dueText job = strftimeUTC d)
    ∧ (job.payload = none →
        _format_message_lines job =
          ["📌 Todo Reminder", "• Description: " ++ job.description, "• Due: " ++ dueText job]) := by
  have hmain : _format_message_lines job =
      ["📌 Todo Reminder", "• Description: " ++ job.description, "• Due: " ++ dueText job]
        ++ specTagsLines job ++ specPriorityLines job ++ specNotesLines job := by
    rcases hp : job.payload with _ | p
    · simp [_format_message_lines, specTagsLines, specPriorityLines, specNotesLines,
        truthyTags, truthyStr, dueText, hp]
    · rcases ht : p.tags with _ | ts
      · rcases hpr : p.priority with _ | s
        · rcases hn : p.notes with _ | t
          · simp [_format_message_lines, specTagsLines, specPriorityLines, specNotesLines,
              truthyTags, truthyStr, dueText, hp, ht, hpr, hn]
          · by_cases hte : t = "" <;>
              simp [_format_message_lines, specTagsLines, specPriorityLines, specNotesLines,
                truthyTags, truthyStr, dueText, hp, ht, hpr, hn, hte]
        · by_cases hse : s = "" <;> rcases hn : p.notes with _ | t
          · simp [_format_message_lines, specTagsLines, specPriorityLines, specNotesLines,
              truthyTags, truthyStr, dueText, hp, ht, hpr, hn, hse]
          · by_cases hte : t = "" <;>
              simp [_format_message_lines, specTagsLines, specPriorityLines, specNotesLines,
                truthyTags, truthyStr, dueText, hp, ht, hpr, hn, hse, hte]
          · simp [_format_message_lines, specTagsLines, specPriorityLines, specNotesLines,
              truthyTags, truthyStr, dueText, hp, ht, hpr, hn, hse]
          · by_cases hte : t = "" <;>
              simp [_format_message_lines, specTagsLines, specPriorityLines, specNotesLines,
                truthyTags, truthyStr, dueText, hp, ht, hpr, hn, hse, hte]
      · rcases ts with _ | ⟨t0, ts'⟩ <;> rcases hpr : p.priority with _ | s <;>
          rcases hn : p.notes with _ | t
        · simp [_format_message_lines, specTagsLines, specPriorityLines, specNotesLines,
            truthyTags, truthyStr, dueText, hp, ht, hpr, hn]
        · by_cases hte : t = "" <;>
            simp [_format_message_lines, specTagsLines, specPriorityLines, specNotesLines,
              truthyTags, truthyStr, dueText, hp, ht, hpr, hn, hte]
        · by_cases hse : s = "" <;>
            simp [_format_message_lines, specTagsLines, specPriorityLines, specNotesLines,
              truthyTags, truthyStr, dueText, hp, ht, hpr, hn, hse]
        · by_cases hse : s = "" <;> by_cases hte : t = "" <;>
            simp [_format_message_lines, specTagsLines, specPriorityLines, specNotesLines,
              truthyTags, truthyStr, dueText, hp, ht, hpr, hn, hse, hte]
        · simp [_format_message_lines, specTagsLines, specPriorityLines, specNotesLines,
            truthyTags, truthyStr, dueText, hp, ht, hpr, hn]
        · by_cases hte : t = "" <;>
            simp [_format_message_lines, specTagsLines, specPriorityLines, specNotesLines,
              truthyTags, truthyStr, dueText, hp, ht, hpr, hn, hte]
        · by_cases hse : s = "" <;>
            simp [_format_message_lines, specTagsLines, specPriorityLines, specNotesLines,
              truthyTags, truthyStr, dueText, hp, ht, hpr, hn, hse]
        · by_cases hse : s = "" <;> by_cases hte : t = "" <;>
            simp [_format_message_lines, specTagsLines, specPriorityLines, specNotesLines,
              truthyTags, truthyStr, dueText, hp, ht, hpr, hn, hse, hte]
  refine ⟨rfl, hmain, ?_, ?_⟩
  · intro d hd
    simp [dueText, hd]
  · intro hp
    rw [hmain]
    simp [specTagsLines, specPriorityLines, specNotesLines, hp]

/-- The rendering example of the spec, used as the witness input for C8. -/
def c8ExampleJob : JobDetails :=
  { reminder_id := 2
    todo_id := 12
    description := "Submit report"
    due_date := DueDate.dt { year := 2024, month := 1, day := 15, hour := 10, minute := 0 }
    payload := some { tags := some ["work", "urgent"], priority := some "high", notes := none }
    user_id := 22
    slack_channel := "C123" }

/-- Witness for C8 on the example of the spec: description "Submit report",
due 2024-01-15T10:00:00Z, tags work/urgent, priority high. -/
theorem C8_witness :
    _format_message c8ExampleJob =
      "📌 Todo Reminder\n• Description: Submit report\n• Due: 2024-01-15 10:00 UTC\n• Tags: work, urgent\n• Priority: high" := by
  have h := C8_render_lines c8ExampleJob
  rw [h.1, h.2.1]
  rfl

/-! ### C1: the claim operation -/

/-- Claim C1: `claim_jobs(limit)` selects at most `limit` jobs satisfying
`status = pending AND scheduled_for <= now AND (visibility_timeout IS NULL OR
visibility_timeout <= now)`, ordered by `scheduled_for` ascending, and within
the same atomic step sets each selected row to `processing` with
`started_at = now` and `visibility_timeout = now + LEASE`, returning the
claimed set; with zero matches it returns the empty list (and leaves the
store unchanged) rather than raising.  The returned count is exactly
`min limit #eligible`. -/
theorem C1_claim_jobs_contract (db : List Job) (now : Int) (limit : Nat) (lease : Int) :
    (claim_jobs db now limit lease).2.length = min limit (db.filter (eligible now)).length
    ∧ (claim_jobs db now limit lease).2.length ≤ limit
    ∧ (∀ r ∈ (claim_jobs db now limit lease).2,
        ∃ j, j ∈ db ∧ eligible now j = true ∧ r = claimUpdate now lease j)
    ∧ (∀ r ∈ (claim_jobs db now limit lease).2,
        r.status = Status.processing ∧ r.started_at = some now
        ∧ r.visibility_timeout = some (now + lease) ∧ r ∈ (claim_jobs db now limit lease).1)
    ∧ (claim_jobs db now limit lease).2.Pairwise
        (fun a b => a.scheduled_for ≤ b.scheduled_for)
    ∧ ((∀ j ∈ db, eligible now j = false) →
        (claim_jobs db now limit lease).2 = [] ∧ (claim_jobs db now limit lease).1 = db) := by
  have hret : (claim_jobs db now limit lease).2
      = (selectedJobs db now limit).map (claimUpdate now lease) := rfl
  have hmem : ∀ r ∈ (claim_jobs db now limit lease).2,
      ∃ j, j ∈ selectedJobs db now limit ∧ r = claimUpdate now lease j := by
    intro r hr
    rw [hret] at hr
    rcases List.mem_map.mp hr with ⟨j, hj, hje⟩
    exact ⟨j, hj, hje.symm⟩
  refine ⟨?_, ?_, ?_, ?_, ?_, ?_⟩
  · rw [hret, List.length_map]
    exact selectedJobs_length db now limit
  · rw [hret, List.length_map]
    rw [selectedJobs_length db now limit]
    exact min_le_left _ _
  · intro r hr
    rcases hmem r hr with ⟨j, hj, hje⟩
    rcases selectedJobs_mem hj with ⟨hjdb, hjel⟩
    exact ⟨j, hjdb, hjel, hje⟩
  · intro r hr
    rcases hmem r hr with ⟨j, hj, hje⟩
    rcases selectedJobs_mem hj with ⟨hjdb, _⟩
    subst hje
    refine ⟨rfl, rfl, rfl, ?_⟩
    have hc : ((selectedJobs db now limit).map Job.id).contains j.id = true :=
      contains_of_mem (List.mem_map_of_mem Job.id hj)
    show claimUpdate now lease j ∈ db.map
      (fun k => if ((selectedJobs db now limit).map Job.id).contains k.id
        then claimUpdate now lease k else k)
    refine List.mem_map.mpr ⟨j, hjdb, ?_⟩
    rw [hc]
    rfl
  · rw [hret]
    rw [List.pairwise_map]
    exact selectedJobs_pairwise db now limit
  · intro hnone
    have hfil : db.filter (eligible now) = [] := by
      rw [List.filter_eq_nil_iff]
      intro j hj
      simp [hnone j hj]
    have hsel : selectedJobs db now limit = [] := by
      simp [selectedJobs, eligibleSorted, hfil, sortBySched]
    constructor
    · rw [hret, hsel]
      rfl
    · show db.map _ = db
      rw [hsel]
      simp [claim_jobs]

/-- A second sample row, terminal, used by witnesses. -/
def sampleFailedJob : Job :=
  { id := 2
    todo_id := 12
    user_id := 22
    status := Status.failed
    scheduled_for := 10
    visibility_timeout := none
    started_at := none
    posted_at := none
    retry_count := 5
    error := some "boom" }

/-- Witness for C1 at concrete inputs: on a store with one eligible and one
terminal row the claim returns exactly one row, and on a store with only the
terminal row it returns the empty list. -/
theorem C1_witness :
    (claim_jobs [sampleJob, sampleFailedJob] 100 10 300).2.length
        = min 10 (([sampleJob, sampleFailedJob].filter (eligible 100)).length)
    ∧ (claim_jobs [sampleFailedJob] 100 10 300).2 = [] :=
  ⟨(C1_claim_jobs_contract [sampleJob, sampleFailedJob] 100 10 300).1,
   ((C1_claim_jobs_contract [sampleFailedJob] 100 10 300).2.2.2.2.2 (by decide)).1⟩

/-! ### Machinery: every store mutation is a guarded row update -/

/-- Rows whose id misses the guard of a guarded update are left in place. -/
theorem guarded_map_mem {c : Job → Bool} {u : Job → Job} {db : List Job} {j : Job}
    (hj : j ∈ db) (hc : c j = false) :
    j ∈ db.map (fun k => if c k then u k else k) := by
  refine List.mem_map.mpr ⟨j, hj, ?_⟩
  rw [hc]
  rfl

/-- A guarded update by an id-preserving row function preserves the id column
of the table. -/
theorem guarded_map_ids {c : Job → Bool} {u : Job → Job} (db : List Job)
    (hu : ∀ j, (u j).id = j.id) :
    (db.map (fun k => if c k then u k else k)).map Job.id = db.map Job.id := by
  induction db with
  | nil => rfl
  | cons k ks ih =>
    simp only [List.map_cons, ih]
    by_cases hk : c k
    · rw [if_pos hk, hu k]
    · rw [if_neg hk]

/-- `requeue_with_backoff` is a guarded update by an id-preserving function
whose result status is `pending` or `failed` (never `processing`). -/
theorem requeue_exists_update (MAX base cap : Nat) (db : List Job) (now : Int)
    (reminder_id current_retry : Nat) (e : String) :
    ∃ u : Job → Job, (∀ j, (u j).id = j.id)
      ∧ (∀ j, (u j).status = Status.pending ∨ (u j).status = Status.failed)
      ∧ requeue_with_backoff MAX base cap db now reminder_id current_retry e
          = db.map (fun k => if k.id == reminder_id then u k else k) := by
  simp only [requeue_with_backoff]
  by_cases h : MAX ≤ current_retry + 1
  · rw [if_pos h]
    exact ⟨requeueUpdateFail e, fun j => rfl, fun j => Or.inr rfl, rfl⟩
  · rw [if_neg h]
    exact ⟨requeueUpdatePending now (_seconds_backoff base cap (current_retry + 1)) e,
      fun j => rfl, fun j => Or.inl rfl, rfl⟩

/-- One per-row step of `process_batch` is a guarded update by an
id-preserving function whose result status is `sent`, `pending` or `failed`
(never `processing`). -/
theorem step_exists_update (cfg : WorkerConfig) (env : BatchEnv) (db : List Job)
    (reminder_id : Nat) :
    ∃ u : Job → Job, (∀ j, (u j).id = j.id)
      ∧ (∀ j, (u j).status ≠ Status.processing)
      ∧ processJobStep cfg env db reminder_id
          = db.map (fun k => if k.id == reminder_id then u k else k) := by
  have hreq : ∀ (r : Nat) (e : String), ∃ u : Job → Job, (∀ j, (u j).id = j.id)
      ∧ (∀ j, (u j).status ≠ Status.processing)
      ∧ requeue_with_backoff cfg.MAX_RETRIES cfg.BACKOFF_BASE_SECS cfg.BACKOFF_MAX_SECS
          db env.now reminder_id r e
        = db.map (fun k => if k.id == reminder_id then u k else k) := by
    intro r e
    rcases requeue_exists_update cfg.MAX_RETRIES cfg.BACKOFF_BASE_SECS cfg.BACKOFF_MAX_SECS
      db env.now reminder_id r e with ⟨u, hid, hst, heq⟩
    refine ⟨u, hid, ?_, heq⟩
    intro j
    rcases hst j with h | h <;> simp [h]
  rcases hdet : env.details reminder_id with _ | d
  · rcases hreq (get_retry_count db reminder_id) "Missing job details" with ⟨u, h1, h2, h3⟩
    refine ⟨u, h1, h2, ?_⟩
    rw [← h3]
    simp [processJobStep, processJobBody, hdet]
  · by_cases hch : d.slack_channel = ""
    · rcases hreq (get_retry_count db reminder_id) "Missing slack_channel" with ⟨u, h1, h2, h3⟩
      refine ⟨u, h1, h2, ?_⟩
      rw [← h3]
      simp [processJobStep, processJobBody, hdet, hch]
    · rcases hsl : post_to_slack env.token (env.slackResp reminder_id) with e | uu
      · rcases hreq (get_retry_count db reminder_id) e with ⟨u, h1, h2, h3⟩
        refine ⟨u, h1, h2, ?_⟩
        rw [← h3]
        simp [processJobStep, processJobBody, hdet, hch, hsl]
      · refine ⟨markSentUpdate env.now, fun j => rfl, fun j => by simp [markSentUpdate], ?_⟩
        simp [processJobStep, processJobBody, hdet, hch, hsl, mark_sent]

/-- A per-row step leaves every row with a different id in place. -/
theorem step_preserves_other (cfg : WorkerConfig) (env : BatchEnv) (db : List Job)
    (reminder_id : Nat) (j : Job) (hj : j ∈ db) (hne : j.id ≠ reminder_id) :
    j ∈ processJobStep cfg env db reminder_id := by
  rcases step_exists_update cfg env db reminder_id with ⟨u, _, _, heq⟩
  rw [heq]
  exact guarded_map_mem hj (by simp [hne])

/-- A per-row step preserves the id column of the table. -/
theorem step_preserves_ids (cfg : WorkerConfig) (env : BatchEnv) (db : List Job)
    (reminder_id : Nat) :
    (processJobStep cfg env db reminder_id).map Job.id = db.map Job.id := by
  rcases step_exists_update cfg env db reminder_id with ⟨u, hid, _, heq⟩
  rw [heq]
  exact guarded_map_ids db hid

/-- A per-row step moves the row with the target id out of `processing`. -/
theorem step_finalizes (cfg : WorkerConfig) (env : BatchEnv) (db : List Job)
    (reminder_id : Nat) (j : Job) (hj : j ∈ db) (hid : j.id = reminder_id) :
    ∃ j' ∈ processJobStep cfg env db reminder_id,
      j'.id = reminder_id ∧ j'.status ≠ Status.processing := by
  rcases step_exists_update cfg env db reminder_id with ⟨u, huid, hust, heq⟩
  refine ⟨u j, ?_, by rw [huid j, hid], hust j⟩
  rw [heq]
  exact mem_map_update hj hid

/-- The per-batch fold leaves rows whose id is claimed by none of the
processed rows in place. -/
theorem foldl_preserves_other (cfg : WorkerConfig) (env : BatchEnv) (rows : List Job)
    (acc : List Job) (j : Job) (hj : j ∈ acc) (hne : j.id ∉ rows.map Job.id) :
    j ∈ rows.foldl (fun a row => processJobStep cfg env a row.id) acc := by
  induction rows generalizing acc with
  | nil => exact hj
  | cons r rest ih =>
    simp only [List.foldl_cons]
    refine ih _ (step_preserves_other cfg env acc r.id j hj ?_) ?_
    · intro h
      exact hne (by simp [h])
    · intro h
      exact hne (by simp [h])

/-- The per-batch fold preserves the id column of the table. -/
theorem foldl_preserves_ids (cfg : WorkerConfig) (env : BatchEnv) (rows : List Job)
    (acc : List Job) :
    (rows.foldl (fun a row => processJobStep cfg env a row.id) acc).map Job.id
      = acc.map Job.id := by
  induction rows generalizing acc with
  | nil => rfl
  | cons r rest ih =>
    simp only [List.foldl_cons]
    rw [ih, step_preserves_ids]

/-- After the per-batch fold, every processed row id is out of `processing`,
provided the processed ids are distinct and each is present in the table. -/
theorem foldl_finalizes (cfg : WorkerConfig) (env : BatchEnv) (rows : List Job)
    (acc : List Job) (hnodup : (rows.map Job.id).Nodup)
    (hpresent : ∀ r ∈ rows, r.id ∈ acc.map Job.id) :
    ∀ r ∈ rows, ∃ j' ∈ rows.foldl (fun a row => processJobStep cfg env a row.id) acc,
      j'.id = r.id ∧ j'.status ≠ Status.processing := by
  induction rows generalizing acc with
  | nil => intro r hr; cases hr
  | cons r0 rest ih =>
    intro r hr
    simp only [List.foldl_cons]
    rcases List.mem_cons.mp hr with rfl | hr
    · rcases List.mem_map.mp (hpresent r (List.mem_cons_self _ _)) with ⟨j, hj, hjid⟩
      rcases step_finalizes cfg env acc r.id j hj hjid with ⟨j', hj', hj'id, hj'st⟩
      refine ⟨j', ?_, hj'id, hj'st⟩
      refine foldl_preserves_other cfg env rest _ j' hj' ?_
      rw [hj'id]
      exact (List.nodup_cons.mp (by simpa using hnodup)).1
    · refine ih _ (List.nodup_cons.mp (by simpa using hnodup)).2 ?_ r hr
      intro r' hr'
      rw [step_preserves_ids]
      exact hpresent r' (List.mem_cons_of_mem _ hr')

/-- The returned rows of a claim carry pairwise-distinct ids when the table
ids are pairwise distinct, and each returned id is present in the updated
table. -/
theorem claimed_ids_nodup (db : List Job) (now : Int) (limit : Nat) (lease : Int)
    (hnodup : (db.map Job.id).Nodup) :
    ((claim_jobs db now limit lease).2.map Job.id).Nodup
    ∧ ∀ r ∈ (claim_jobs db now limit lease).2,
        r.id ∈ ((claim_jobs db now limit lease).1.map Job.id) := by
  have hsel : ((selectedJobs db now limit).map Job.id).Nodup := by
    have hfil : ((db.filter (eligible now)).map Job.id).Nodup :=
      hnodup.sublist ((List.filter_sublist db).map Job.id)
    have hsort : ((eligibleSorted db now).map Job.id).Nodup :=
      (((sortBySched_perm (db.filter (eligible now))).map Job.id).nodup_iff).mpr hfil
    exact hsort.sublist ((List.take_sublist limit _).map Job.id)
  constructor
  · have : (claim_jobs db now limit lease).2.map Job.id
        = (selectedJobs db now limit).map Job.id := by
      show ((selectedJobs db now limit).map (claimUpdate now lease)).map Job.id = _
      rw [List.map_map]
      rfl
    rw [this]
    exact hsel
  · intro r hr
    rcases List.mem_map.mp hr with ⟨j, hj, hje⟩
    rcases selectedJobs_mem hj with ⟨hjdb, _⟩
    have hc : ((selectedJobs db now limit).map Job.id).contains j.id = true :=
      contains_of_mem (List.mem_map_of_mem Job.id hj)
    have hmem : claimUpdate now lease j ∈ (claim_jobs db now limit lease).1 := by
      show claimUpdate now lease j ∈ db.map
        (fun k => if ((selectedJobs db now limit).map Job.id).contains k.id
          then claimUpdate now lease k else k)
      refine List.mem_map.mpr ⟨j, hjdb, ?_⟩
      rw [hc]
      rfl
    rw [← hje]
    exact List.mem_map_of_mem Job.id hmem

/-! ### C7: per-job failure isolation in `process_batch` -/

/-- Claim C7: `process_batch` is total over any claimed batch: an exception
in one job body is caught at that job boundary and converted into the
`requeue_with_backoff` store mutation; every claimed job is driven to a
non-`processing` status, and the loop reports the full batch count, so one
failure of one job neither aborts the remaining jobs nor crashes the loop. -/
theorem C7_batch_isolation (cfg : WorkerConfig) (env : BatchEnv) (db : List Job)
    (hnodup : (db.map Job.id).Nodup) :
    (process_batch cfg env db).2
        = (claim_jobs db env.now cfg.MAX_BATCH cfg.VISIBILITY_TIMEOUT_SECS).2.length
    ∧ (∀ r ∈ (claim_jobs db env.now cfg.MAX_BATCH cfg.VISIBILITY_TIMEOUT_SECS).2,
        ∃ j' ∈ (process_batch cfg env db).1, j'.id = r.id ∧ j'.status ≠ Status.processing)
    ∧ (∀ (db2 : List Job) (rid : Nat) (e : String),
        processJobBody cfg env db2 rid = Except.error e →
        processJobStep cfg env db2 rid
          = requeue_with_backoff cfg.MAX_RETRIES cfg.BACKOFF_BASE_SECS cfg.BACKOFF_MAX_SECS
              db2 env.now rid (get_retry_count db2 rid) e) := by
  rcases claimed_ids_nodup db env.now cfg.MAX_BATCH cfg.VISIBILITY_TIMEOUT_SECS hnodup
    with ⟨hcn, hcp⟩
  by_cases hemp :
      (claim_jobs db env.now cfg.MAX_BATCH cfg.VISIBILITY_TIMEOUT_SECS).2.isEmpty
  · refine ⟨?_, ?_, ?_⟩
    · show (if _ then _ else _ : List Job × Nat).2 = _
      rw [if_pos hemp]
      rw [List.isEmpty_iff] at hemp
      rw [hemp]
      rfl
    · intro r hr
      rw [List.isEmpty_iff] at hemp
      rw [hemp] at hr
      cases hr
    · intro db2 rid e he
      unfold processJobStep
      rw [he]
  · refine ⟨?_, ?_, ?_⟩
    · show (if _ then _ else _ : List Job × Nat).2 = _
      rw [if_neg hemp]
    · intro r hr
      have hres : (process_batch cfg env db).1
          = (claim_jobs db env.now cfg.MAX_BATCH cfg.VISIBILITY_TIMEOUT_SECS).2.foldl
              (fun a row => processJobStep cfg env a row.id)
              (claim_jobs db env.now cfg.MAX_BATCH cfg.VISIBILITY_TIMEOUT_SECS).1 := by
        show (if _ then _ else _ : List Job × Nat).1 = _
        rw [if_neg hemp]
      rw [hres]
      exact foldl_finalizes cfg env _ _ hcn hcp r hr
    · intro db2 rid e he
      unfold processJobStep
      rw [he]

/-- The external world used by the C7 witness: details always missing, so
every claimed job goes through the "Missing job details" requeue path. -/
def c7Env : BatchEnv :=
  { now := 100
    token := "xoxb-token"
    details := fun _ => none
    slackResp := fun _ => { status_code := 200, jsonData := some { ok := true, raw := "" } } }

/-- Witness for C7 at concrete inputs: the batch over a two-row store reports
the claimed count. -/
theorem C7_witness :
    (process_batch defaultConfig c7Env [sampleJob, sampleFailedJob]).2
      = (claim_jobs [sampleJob, sampleFailedJob] 100 10 300).2.length :=
  (C7_batch_isolation defaultConfig c7Env [sampleJob, sampleFailedJob] (by decide)).1

/-! ### C5: `sent` and `failed` are terminal -/

/-- A claim never returns (the id of) a `sent` or `failed` row: eligibility
requires `status = pending`. -/
theorem claim_excludes_terminal (db : List Job) (now : Int) (limit : Nat) (lease : Int)
    (hnodup : (db.map Job.id).Nodup) (j : Job) (hj : j ∈ db)
    (hterm : j.status = Status.sent ∨ j.status = Status.failed) :
    ∀ r ∈ (claim_jobs db now limit lease).2, r.id ≠ j.id := by
  intro r hr heq
  rcases List.mem_map.mp hr with ⟨j0, hj0, hj0e⟩
  rcases selectedJobs_mem hj0 with ⟨hj0db, hj0el⟩
  have hid : j0.id = j.id := by rw [← hj0e] at heq; exact heq
  have hj0j : j0 = j := List.inj_on_of_nodup_map hnodup hj0db hj hid
  have hpend : j0.status = Status.pending := by
    have h := hj0el
    simp only [eligible, Bool.and_eq_true, beq_iff_eq] at h
    exact h.1.1
  rw [hj0j] at hpend
  rcases hterm with h | h <;> rw [h] at hpend <;> cases hpend

/-- The id of a `sent` or `failed` row is not among the selected ids of a
claim. -/
theorem terminal_not_selected (db : List Job) (now : Int) (limit : Nat)
    (hnodup : (db.map Job.id).Nodup) (j : Job) (hj : j ∈ db)
    (hterm : j.status = Status.sent ∨ j.status = Status.failed) :
    j.id ∉ (selectedJobs db now limit).map Job.id := by
  intro hmem
  rcases List.mem_map.mp hmem with ⟨j0, hj0, hj0id⟩
  rcases selectedJobs_mem hj0 with ⟨hj0db, hj0el⟩
  have hj0j : j0 = j := List.inj_on_of_nodup_map hnodup hj0db hj hj0id
  have hpend : j0.status = Status.pending := by
    have h := hj0el
    simp only [eligible, Bool.and_eq_true, beq_iff_eq] at h
    exact h.1.1
  rw [hj0j] at hpend
  rcases hterm with h | h <;> rw [h] at hpend <;> cases hpend

/-- `process_batch` preserves the id column of the table. -/
theorem batch_preserves_ids (cfg : WorkerConfig) (env : BatchEnv) (db : List Job) :
    (process_batch cfg env db).1.map Job.id = db.map Job.id := by
  have hdb1 : (claim_jobs db env.now cfg.MAX_BATCH cfg.VISIBILITY_TIMEOUT_SECS).1.map Job.id
      = db.map Job.id :=
    guarded_map_ids db (fun j => rfl)
  by_cases hemp :
      (claim_jobs db env.now cfg.MAX_BATCH cfg.VISIBILITY_TIMEOUT_SECS).2.isEmpty
  · show ((if _ then _ else _ : List Job × Nat).1).map Job.id = _
    rw [if_pos hemp]
    exact hdb1
  · show ((if _ then _ else _ : List Job × Nat).1).map Job.id = _
    rw [if_neg hemp]
    rw [foldl_preserves_ids]
    exact hdb1

/-- One `process_batch` leaves a `sent` or `failed` row exactly in place. -/
theorem batch_preserves_terminal (cfg : WorkerConfig) (env : BatchEnv) (db : List Job)
    (hnodup : (db.map Job.id).Nodup) (j : Job) (hj : j ∈ db)
    (hterm : j.status = Status.sent ∨ j.status = Status.failed) :
    j ∈ (process_batch cfg env db).1 := by
  have hnotsel : j.id ∉ (selectedJobs db env.now cfg.MAX_BATCH).map Job.id :=
    terminal_not_selected db env.now cfg.MAX_BATCH hnodup j hj hterm
  have hdb1 : j ∈ (claim_jobs db env.now cfg.MAX_BATCH cfg.VISIBILITY_TIMEOUT_SECS).1 := by
    show j ∈ db.map (fun k =>
      if ((selectedJobs db env.now cfg.MAX_BATCH).map Job.id).contains k.id
        then claimUpdate env.now cfg.VISIBILITY_TIMEOUT_SECS k else k)
    refine guarded_map_mem hj ?_
    by_cases hc : ((selectedJobs db env.now cfg.MAX_BATCH).map Job.id).contains j.id
    · exact absurd (mem_of_contains hc) hnotsel
    · simpa using hc
  have hclaimedids :
      (claim_jobs db env.now cfg.MAX_BATCH cfg.VISIBILITY_TIMEOUT_SECS).2.map Job.id
        = (selectedJobs db env.now cfg.MAX_BATCH).map Job.id := by
    show ((selectedJobs db env.now cfg.MAX_BATCH).map
      (claimUpdate env.now cfg.VISIBILITY_TIMEOUT_SECS)).map Job.id = _
    rw [List.map_map]
    rfl
  by_cases hemp :
      (claim_jobs db env.now cfg.MAX_BATCH cfg.VISIBILITY_TIMEOUT_SECS).2.isEmpty
  · show j ∈ (if _ then _ else _ : List Job × Nat).1
    rw [if_pos hemp]
    exact hdb1
  · show j ∈ (if _ then _ else _ : List Job × Nat).1
    rw [if_neg hemp]
    refine foldl_preserves_other cfg env _ _ j hdb1 ?_
    rw [hclaimedids]
    exact hnotsel

/-- Any sequence of `process_batch` cycles leaves a `sent` or `failed` row
exactly in place, and preserves the id column. -/
theorem runBatches_preserves_terminal (cfg : WorkerConfig) (steps : List BatchEnv)
    (db : List Job) (j : Job) (hnodup : (db.map Job.id).Nodup) (hj : j ∈ db)
    (hterm : j.status = Status.sent ∨ j.status = Status.failed) :
    j ∈ runBatches cfg steps db
    ∧ (runBatches cfg steps db).map Job.id = db.map Job.id := by
  induction steps generalizing db with
  | nil => exact ⟨hj, rfl⟩
  | cons env rest ih =>
    have hstep : runBatches cfg (env :: rest) db
        = runBatches cfg rest (process_batch cfg env db).1 := rfl
    have hids : (process_batch cfg env db).1.map Job.id = db.map Job.id :=
      batch_preserves_ids cfg env db
    have hnodup' : ((process_batch cfg env db).1.map Job.id).Nodup := by
      rw [hids]; exact hnodup
    have hj' : j ∈ (process_batch cfg env db).1 :=
      batch_preserves_terminal cfg env db hnodup j hj hterm
    rcases ih (process_batch cfg env db).1 hnodup' hj' with ⟨h1, h2⟩
    rw [hstep]
    exact ⟨h1, by rw [h2, hids]⟩

/-- Claim C5: a `sent` or `failed` row is terminal for the worker: across any
sequence of `process_batch` cycles (each driving Claim, MarkSent and
RequeueOrFail exactly as the source does) the row is left exactly in place —
no worker operation moves it out of its terminal status — and no Claim call,
on the initial state or on any state the cycles reach, ever returns its id. -/
theorem C5_terminal_is_terminal (cfg : WorkerConfig) (steps : List BatchEnv)
    (db : List Job) (j : Job) (hnodup : (db.map Job.id).Nodup) (hj : j ∈ db)
    (hterm : j.status = Status.sent ∨ j.status = Status.failed) :
    j ∈ runBatches cfg steps db
    ∧ (∀ (now lease : Int) (limit : Nat),
        ∀ r ∈ (claim_jobs db now limit lease).2, r.id ≠ j.id)
    ∧ (∀ (now lease : Int) (limit : Nat),
        ∀ r ∈ (claim_jobs (runBatches cfg steps db) now limit lease).2, r.id ≠ j.id) := by
  rcases runBatches_preserves_terminal cfg steps db j hnodup hj hterm with ⟨hmem, hids⟩
  refine ⟨hmem, ?_, ?_⟩
  · intro now lease limit
    exact claim_excludes_terminal db now limit lease hnodup j hj hterm
  · intro now lease limit
    refine claim_excludes_terminal _ now limit lease ?_ j hmem hterm
    rw [hids]
    exact hnodup

/-- Witness for C5 at concrete inputs: the failed sample row survives one
batch cycle untouched. -/
theorem C5_witness :
    sampleFailedJob ∈ runBatches defaultConfig [c7Env] [sampleJob, sampleFailedJob] :=
  (C5_terminal_is_terminal defaultConfig [c7Env] [sampleJob, sampleFailedJob]
    sampleFailedJob (by decide) (by decide) (Or.inr rfl)).1

/-! ### C3: retry exhaustion end to end -/

@[simp]
theorem claimUpdate_id (now lease : Int) (j : Job) : (claimUpdate now lease j).id = j.id := rfl

@[simp]
theorem claimUpdate_retry_count (now lease : Int) (j : Job) :
    (claimUpdate now lease j).retry_count = j.retry_count := rfl

/-- A claim over a one-row store whose row is eligible claims that row. -/
theorem claim_singleton (p : Job) (now lease : Int) (limit : Nat) (hlim : 1 ≤ limit)
    (hp : p.status = Status.pending) (hsched : p.scheduled_for ≤ now)
    (hvt : vtOk now p.visibility_timeout = true) :
    claim_jobs [p] now limit lease
      = ([claimUpdate now lease p], [claimUpdate now lease p]) := by
  have helig : eligible now p = true := by simp [eligible, hp, hsched, hvt]
  have hsel : selectedJobs [p] now limit = [p] := by
    unfold selectedJobs eligibleSorted
    rw [List.filter_cons_of_pos helig]
    show ([p].take limit) = [p]
    cases limit with
    | zero => omega
    | succ n => simp
  simp [claim_jobs, hsel]

/-- `get_retry_count` over a one-row store whose row has the asked id. -/
theorem get_retry_count_singleton (q : Job) (rid : Nat) (hq : q.id = rid) :
    get_retry_count [q] rid = q.retry_count := by
  unfold get_retry_count fetchvalRetryCount
  rw [List.find?_cons_of_pos _ (by simp [hq])]
  simp [pyIntOrZero_some]

/-- `requeue_with_backoff` over a one-row store whose row has the asked id. -/
theorem requeue_singleton (MAX base cap : Nat) (now : Int) (rid r : Nat) (e : String)
    (q : Job) (hq : q.id = rid) :
    requeue_with_backoff MAX base cap [q] now rid r e
      = if MAX ≤ r + 1 then [requeueUpdateFail e q]
        else [requeueUpdatePending now (_seconds_backoff base cap (r + 1)) e q] := by
  simp only [requeue_with_backoff]
  by_cases h : MAX ≤ r + 1
  · rw [if_pos h, if_pos h]
    simp [hq]
  · rw [if_neg h, if_neg h]
    simp [hq]

/-- A per-row step whose delivery raises reduces to the requeue path. -/
theorem step_slack_error (cfg : WorkerConfig) (env : BatchEnv) (db : List Job)
    (rid : Nat) (d : JobDetails) (m : String)
    (hdet : env.details rid = some d) (hch : d.slack_channel ≠ "")
    (hsl : post_to_slack env.token (env.slackResp rid) = Except.error m) :
    processJobStep cfg env db rid
      = requeue_with_backoff cfg.MAX_RETRIES cfg.BACKOFF_BASE_SECS cfg.BACKOFF_MAX_SECS
          db env.now rid (get_retry_count db rid) m := by
  simp [processJobStep, processJobBody, hdet, hch, hsl]

/-- One `process_batch` cycle over a one-row store whose row is eligible and
whose delivery fails: the row is claimed and then requeued or failed
according to `retry_count + 1` against `MAX_RETRIES`. -/
theorem batch_singleton_fail (cfg : WorkerConfig) (env : BatchEnv) (p : Job)
    (d : JobDetails) (m : String)
    (hlim : 1 ≤ cfg.MAX_BATCH)
    (hp : p.status = Status.pending)
    (hsched : p.scheduled_for ≤ env.now)
    (hvt : vtOk env.now p.visibility_timeout = true)
    (hdet : env.details p.id = some d)
    (hch : d.slack_channel ≠ "")
    (hsl : post_to_slack env.token (env.slackResp p.id) = Except.error m) :
    (process_batch cfg env [p]).1
      = if cfg.MAX_RETRIES ≤ p.retry_count + 1 then
          [requeueUpdateFail m (claimUpdate env.now cfg.VISIBILITY_TIMEOUT_SECS p)]
        else
          [requeueUpdatePending env.now
            (_seconds_backoff cfg.BACKOFF_BASE_SECS cfg.BACKOFF_MAX_SECS (p.retry_count + 1)) m
            (claimUpdate env.now cfg.VISIBILITY_TIMEOUT_SECS p)] := by
  have hclaim := claim_singleton p env.now cfg.VISIBILITY_TIMEOUT_SECS cfg.MAX_BATCH hlim hp
    hsched hvt
  have h1 : (process_batch cfg env [p]).1
      = processJobStep cfg env [claimUpdate env.now cfg.VISIBILITY_TIMEOUT_SECS p] p.id := by
    simp [process_batch, hclaim]
  rw [h1]
  have hdet' : env.details (claimUpdate env.now cfg.VISIBILITY_TIMEOUT_SECS p).id = some d := hdet
  have hsl' : post_to_slack env.token
      (env.slackResp (claimUpdate env.now cfg.VISIBILITY_TIMEOUT_SECS p).id)
      = Except.error m := hsl
  rw [step_slack_error cfg env _ p.id d m hdet hch hsl]
  rw [get_retry_count_singleton (claimUpdate env.now cfg.VISIBILITY_TIMEOUT_SECS p) p.id rfl]
  rw [requeue_singleton cfg.MAX_RETRIES cfg.BACKOFF_BASE_SECS cfg.BACKOFF_MAX_SECS env.now p.id
    (claimUpdate env.now cfg.VISIBILITY_TIMEOUT_SECS p).retry_count m
    (claimUpdate env.now cfg.VISIBILITY_TIMEOUT_SECS p) rfl]
  simp only [claimUpdate_retry_count]

/-- The table state after `n` successive `process_batch` cycles, cycle `k`
running against the external world `envs k`. -/
def iterBatches (cfg : WorkerConfig) (envs : Nat → BatchEnv) (db : List Job) : Nat → List Job
  | 0 => db
  | Nat.succ k => (process_batch cfg (envs k) (iterBatches cfg envs db k)).1

/-- The single job after `k` claim-fail-requeue cycles, written as the cycle
lemma produces it. -/
def jobAfterFailures (cfg : WorkerConfig) (envs : Nat → BatchEnv) (msg : Nat → String)
    (j : Job) : Nat → Job
  | 0 => j
  | Nat.succ k =>
    let p := jobAfterFailures cfg envs msg j k
    requeueUpdatePending (envs k).now
      (_seconds_backoff cfg.BACKOFF_BASE_SECS cfg.BACKOFF_MAX_SECS (p.retry_count + 1)) (msg k)
      (claimUpdate (envs k).now cfg.VISIBILITY_TIMEOUT_SECS p)

theorem jobAfterFailures_id (cfg : WorkerConfig) (envs : Nat → BatchEnv) (msg : Nat → String)
    (j : Job) (k : Nat) : (jobAfterFailures cfg envs msg j k).id = j.id := by
  induction k with
  | zero => rfl
  | succ k ih => simp only [jobAfterFailures]; exact ih

theorem jobAfterFailures_retry_count (cfg : WorkerConfig) (envs : Nat → BatchEnv)
    (msg : Nat → String) (j : Job) (hrc0 : j.retry_count = 0) (k : Nat) :
    (jobAfterFailures cfg envs msg j k).retry_count = k := by
  induction k with
  | zero => exact hrc0
  | succ k ih =>
    simp only [jobAfterFailures]
    show (claimUpdate (envs k).now cfg.VISIBILITY_TIMEOUT_SECS
      (jobAfterFailures cfg envs msg j k)).retry_count + 1 = k + 1
    rw [claimUpdate_retry_count, ih]

/-- Claim C3: a job starting at `retry_count = 0` whose delivery fails in
`MAX_RETRIES` consecutive processing cycles (each cycle claims it, attempts
delivery, and requeues with the current retry count) is `pending` with
`retry_count = k` after each cycle `k < MAX_RETRIES` — so the `failed`
transition happens exactly once — and after cycle `MAX_RETRIES` it is
`failed` with `retry_count = MAX_RETRIES` and `error` holding the last
failure text (truncated to 512 characters). -/
theorem C3_retry_exhaustion (cfg : WorkerConfig) (envs : Nat → BatchEnv)
    (dets : Nat → JobDetails) (msg : Nat → String) (j : Job)
    (hM : 1 ≤ cfg.MAX_RETRIES) (hB : 1 ≤ cfg.MAX_BATCH)
    (hp0 : j.status = Status.pending) (hrc0 : j.retry_count = 0)
    (hsched0 : j.scheduled_for ≤ (envs 0).now)
    (hvt0 : vtOk (envs 0).now j.visibility_timeout = true)
    (hdet : ∀ k, (envs k).details j.id = some (dets k))
    (hch : ∀ k, (dets k).slack_channel ≠ "")
    (hsl : ∀ k, post_to_slack (envs k).token ((envs k).slackResp j.id)
      = Except.error (msg k))
    (hchain : ∀ k, k + 1 < cfg.MAX_RETRIES →
      (envs k).now
          + (_seconds_backoff cfg.BACKOFF_BASE_SECS cfg.BACKOFF_MAX_SECS (k + 1) : Int)
        ≤ (envs (k + 1)).now) :
    (∀ k, k < cfg.MAX_RETRIES → ∃ jk, iterBatches cfg envs [j] k = [jk]
        ∧ jk.status = Status.pending ∧ jk.retry_count = k)
    ∧ ∃ jf, iterBatches cfg envs [j] cfg.MAX_RETRIES = [jf]
        ∧ jf.status = Status.failed ∧ jf.retry_count = cfg.MAX_RETRIES
        ∧ jf.error = some (sqlLeft (msg (cfg.MAX_RETRIES - 1)) 512) := by
  have hstatus : ∀ k, (jobAfterFailures cfg envs msg j k).status = Status.pending := by
    intro k
    cases k with
    | zero => exact hp0
    | succ k => rfl
  have helig : ∀ k, k < cfg.MAX_RETRIES →
      (jobAfterFailures cfg envs msg j k).scheduled_for ≤ (envs k).now
      ∧ vtOk (envs k).now (jobAfterFailures cfg envs msg j k).visibility_timeout = true := by
    intro k hk
    cases k with
    | zero => exact ⟨hsched0, hvt0⟩
    | succ k =>
      constructor
      · show (envs k).now + _ ≤ (envs (k + 1)).now
        have := hchain k hk
        rw [jobAfterFailures_retry_count cfg envs msg j hrc0 k]
        exact this
      · rfl
  have hiter : ∀ k, k < cfg.MAX_RETRIES →
      iterBatches cfg envs [j] k = [jobAfterFailures cfg envs msg j k] := by
    intro k
    induction k with
    | zero => intro _; rfl
    | succ k ih =>
      intro hk
      have hk' : k < cfg.MAX_RETRIES := Nat.lt_of_succ_lt hk
      show (process_batch cfg (envs k) (iterBatches cfg envs [j] k)).1 = _
      rw [ih hk']
      have hdet' : (envs k).details (jobAfterFailures cfg envs msg j k).id = some (dets k) := by
        rw [jobAfterFailures_id]; exact hdet k
      have hsl' : post_to_slack (envs k).token
          ((envs k).slackResp (jobAfterFailures cfg envs msg j k).id)
          = Except.error (msg k) := by
        rw [jobAfterFailures_id]; exact hsl k
      rw [batch_singleton_fail cfg (envs k) _ (dets k) (msg k) hB (hstatus k)
        (helig k hk').1 (helig k hk').2 hdet' (hch k) hsl']
      rw [if_neg ?hbr]
      · rfl
      case hbr =>
        rw [jobAfterFailures_retry_count cfg envs msg j hrc0 k]
        omega
  constructor
  · intro k hk
    exact ⟨jobAfterFailures cfg envs msg j k, hiter k hk, hstatus k,
      jobAfterFailures_retry_count cfg envs msg j hrc0 k⟩
  · rcases Nat.exists_eq_add_of_le hM with ⟨M, hMeq⟩
    have hMeq' : cfg.MAX_RETRIES = M + 1 := by omega
    have hMlt : M < cfg.MAX_RETRIES := by omega
    have hdet' : (envs M).details (jobAfterFailures cfg envs msg j M).id = some (dets M) := by
      rw [jobAfterFailures_id]; exact hdet M
    have hsl' : post_to_slack (envs M).token
        ((envs M).slackResp (jobAfterFailures cfg envs msg j M).id)
        = Except.error (msg M) := by
      rw [jobAfterFailures_id]; exact hsl M
    have hlast : iterBatches cfg envs [j] cfg.MAX_RETRIES
        = [requeueUpdateFail (msg M)
            (claimUpdate (envs M).now cfg.VISIBILITY_TIMEOUT_SECS
              (jobAfterFailures cfg envs msg j M))] := by
      rw [hMeq']
      show (process_batch cfg (envs M) (iterBatches cfg envs [j] M)).1 = _
      rw [hiter M hMlt]
      rw [batch_singleton_fail cfg (envs M) _ (dets M) (msg M) hB (hstatus M)
        (helig M hMlt).1 (helig M hMlt).2 hdet' (hch M) hsl']
      rw [if_pos ?hbr2]
      case hbr2 =>
        rw [jobAfterFailures_retry_count cfg envs msg j hrc0 M]
        omega
    refine ⟨_, hlast, rfl, ?_, ?_⟩
    · show (jobAfterFailures cfg envs msg j M).retry_count + 1 = cfg.MAX_RETRIES
      rw [jobAfterFailures_retry_count cfg envs msg j hrc0 M]
      omega
    · show some (sqlLeft (msg M) 512) = _
      have : cfg.MAX_RETRIES - 1 = M := by omega
      rw [this]

/-- Detail snapshot used by the C3 witness. -/
def c3Details : JobDetails :=
  { reminder_id := 1
    todo_id := 11
    description := "t"
    due_date := DueDate.other "soon"
    payload := none
    user_id := 21
    slack_channel := "C123" }

/-- A not-ok Slack acknowledgment used by the C3 witness. -/
def c3Resp : HttpResponse :=
  { status_code := 200, jsonData := some { ok := false, raw := "r" } }

/-- Cycle environments of the C3 witness: time advances far past any backoff
between cycles, and delivery always fails. -/
def c3Env (k : Nat) : BatchEnv :=
  { now := 100000 * ((k : Int) + 1)
    token := "xoxb-token"
    details := fun _ => some c3Details
    slackResp := fun _ => c3Resp }

/-- The failure text of each cycle of the C3 witness. -/
def c3Msg : Nat → String := fun _ => "Slack API error: " ++ "r"

/-- Witness for C3 at concrete inputs: the sample pending job, failing in all
5 default cycles, ends failed with retry count 5 and the last failure text. -/
theorem C3_witness :
    ∃ jf, iterBatches defaultConfig c3Env [sampleJob] defaultConfig.MAX_RETRIES = [jf]
      ∧ jf.status = Status.failed ∧ jf.retry_count = defaultConfig.MAX_RETRIES
      ∧ jf.error = some (sqlLeft (c3Msg (defaultConfig.MAX_RETRIES - 1)) 512) :=
  (C3_retry_exhaustion defaultConfig c3Env (fun _ => c3Details) c3Msg sampleJob
    (by decide) (by decide) rfl rfl (by decide) rfl
    (fun _ => rfl) (fun _ => (by decide : c3Details.slack_channel ≠ "")) (fun _ => rfl)
    (by
      intro k hk
      have h4 : k < 4 := by
        have : defaultConfig.MAX_RETRIES = 5 := rfl
        omega
      interval_cases k <;> decide)).2

end ReminderWorker
